import Mathlib

/-!
Verification of the UK-ZONES courier-coverage dashboard (`src/App.tsx`).

The React component is shallowly embedded as follows:
* `LocationData` mirrors the record type of the static catalog; the catalog
  itself (`LOCATIONS`, supplied by `constants.ts`) is kept as an explicit
  list parameter of every operation.  Coordinates and the courier-need
  metric are opaque to all verified operations, so they are modelled as
  integers.
* The `radii` React state (`{ [key: number]: number }`) is modelled as an
  association list with the JS-object update `{...prev, [id]: v}` made
  explicit.  Enumeration order of numeric JS keys is not observable in any
  verified property, so the list order is the insertion order.
* The Leaflet side (the Map Adapter) is a `MapState`: which layers are
  attached to the map, the drawn radius in meters of each circle, the
  icon label mode of each marker, the popup slider DOM state, and the log of layer/icon
  calls issued.  `addLayer`/`removeLayer`/`setIcon`/`setCircleRadius` are
  the imperative Leaflet primitives.
* Each `useEffect` body becomes a function on `MapState`; a user event
  becomes an `Op`, and `stepOp` performs the React state update followed by
  the effects whose dependencies changed (React skips an effect when its
  dependency is unchanged under `Object.is`; `setRadii` always stores a
  fresh object, so the radii effect always re-runs after it).
* `initState` is the quiescent state right after mount: radii initialized
  to 10 km, all markers in the attached cluster group, heatmap detached,
  labels on.
-/

/-- Mirror of `LocationData` from `types.ts`: `{ id, city, region, lat, lng,
courierNeed }`. -/
structure LocationData where
  id : Nat
  city : String
  region : String
  lat : Int
  lng : Int
  courierNeed : Int
deriving DecidableEq

/-- JS `s.toLowerCase()`, per-character case folding. -/
def lowerStr (s : String) : String :=
  ⟨s.data.map Char.toLower⟩

/-- Test whether the first list is an initial segment of the second. -/
def begWith : List Char → List Char → Bool
  | [], _ => true
  | _ :: _, [] => false
  | a :: qs, c :: ss => a == c && begWith qs ss

/-- Test whether the first list occurs as a contiguous segment of the second;
the empty query occurs in every string, matching the JS includes method. -/
def occursIn : List Char → List Char → Bool
  | q, [] => q.isEmpty
  | q, c :: t => begWith q (c :: t) || occursIn q t

/-- JS `s.includes(q)` on strings. -/
def strIncludes (s q : String) : Bool :=
  occursIn q.data s.data

/-- The `filteredLocations` memo from `App.tsx`:
`LOCATIONS.filter(location => location.city.toLowerCase().includes(searchTerm.toLowerCase()))`. -/
def filteredLocations (LOCATIONS : List LocationData) (searchTerm : String) :
    List LocationData :=
  LOCATIONS.filter (fun location =>
    strIncludes (lowerStr location.city) (lowerStr searchTerm))

theorem begWith_iff (q : List Char) :
    ∀ s : List Char, begWith q s = true ↔ ∃ t, s = q ++ t := by
  induction q with
  | nil =>
    intro s
    simp [begWith]
  | cons a qs ih =>
    intro s
    cases s with
    | nil =>
      simp [begWith]
    | cons c ss =>
      simp only [begWith, Bool.and_eq_true, beq_iff_eq, ih ss]
      constructor
      · rintro ⟨rfl, t, rfl⟩
        exact ⟨t, rfl⟩
      · rintro ⟨t, ht⟩
        rw [List.cons_append] at ht
        cases ht
        exact ⟨rfl, t, rfl⟩

theorem occursIn_iff (q : List Char) :
    ∀ s : List Char, occursIn q s = true ↔ ∃ a b, s = a ++ q ++ b := by
  intro s
  induction s with
  | nil =>
    cases q with
    | nil => simp [occursIn]
    | cons c t => simp [occursIn]
  | cons c t ih =>
    simp only [occursIn, Bool.or_eq_true, begWith_iff, ih]
    constructor
    · rintro (⟨b, hb⟩ | ⟨a, b, hab⟩)
      · exact ⟨[], b, by simpa using hb⟩
      · exact ⟨c :: a, b, by simp [hab]⟩
    · rintro ⟨a, b, hab⟩
      cases a with
      | nil =>
        exact Or.inl ⟨b, by simpa using hab⟩
      | cons c' a' =>
        rw [List.cons_append, List.cons_append] at hab
        cases hab
        exact Or.inr ⟨a', b, rfl⟩

theorem occursIn_nil_left (s : List Char) : occursIn [] s = true := by
  cases s <;> rfl

/-- Claim C4: the Search Filter returns exactly the catalog records whose
city name contains the query as a case-insensitive substring, as an
order-preserving subsequence of the catalog, and the empty query returns the
full catalog unmodified.  (The computation is a pure Lean function, hence
deterministic.) -/
theorem search_filter_correct (cat : List LocationData) (q : String) :
    List.Sublist (filteredLocations cat q) cat ∧
    filteredLocations cat "" = cat ∧
    (∀ loc, loc ∈ filteredLocations cat q ↔
      loc ∈ cat ∧ ∃ a b, (lowerStr loc.city).data = a ++ (lowerStr q).data ++ b) := by
  refine ⟨List.filter_sublist cat, ?_, ?_⟩
  · apply List.filter_eq_self.mpr
    intro a _
    exact occursIn_nil_left _
  · intro loc
    rw [filteredLocations, List.mem_filter, strIncludes, occursIn_iff]

/-- Witness for C4 at the concrete catalog of the spec scenarios. -/
def londonLoc : LocationData :=
  { id := 1, city := "London", region := "Greater London",
    lat := 51, lng := 0, courierNeed := 500 }

def manchesterLoc : LocationData :=
  { id := 2, city := "Manchester", region := "North West",
    lat := 53, lng := -2, courierNeed := 320 }

def leedsLoc : LocationData :=
  { id := 3, city := "Leeds", region := "Yorkshire",
    lat := 53, lng := -1, courierNeed := 210 }

def cat1 : List LocationData := [londonLoc]

def cat3 : List LocationData := [londonLoc, manchesterLoc, leedsLoc]

theorem search_filter_correct_witness :
    List.Sublist (filteredLocations cat3 "lon") cat3 ∧
    filteredLocations cat3 "" = cat3 ∧
    (londonLoc ∈ filteredLocations cat3 "lon" ↔
      londonLoc ∈ cat3 ∧
      ∃ a b, (lowerStr londonLoc.city).data = a ++ (lowerStr "lon").data ++ b) := by
  have h := search_filter_correct cat3 "lon"
  exact ⟨h.1, h.2.1, h.2.2 londonLoc⟩

/-! Section: the Map Adapter (Leaflet) state. -/

/-- Handles on Leaflet layers held by the component: per-location marker and
circle handles (`layerRefs`), the cluster group and the heatmap layer. -/
inductive LayerId
  | marker (id : Nat)
  | circle (id : Nat)
  | cluster
  | heat
deriving DecidableEq

/-- Imperative calls issued to the mapping library (layer add/remove, marker
icon rebuild, circle radius update). -/
inductive MapCall
  | addLayer (l : LayerId)
  | removeLayer (l : LayerId)
  | setIcon (id : Nat) (labeled : Bool)
  | setCircleRadius (id : Nat) (meters : Int)
deriving DecidableEq

/-- The observable Leaflet-side state: `attached l` is `map.hasLayer(l)`;
`circleRadiusM id` is the drawn radius of circle `id` in meters;
`markerLabeled id` records whether the current icon of marker `id` carries the
city-name label; `sliderOpenDOM id` is whether the popup slider element
`radius-id` is currently in the DOM, with `sliderVal`/`labelVal` its slider
position and numeric label; `calls` is the log of calls issued. -/
structure MapState where
  attached : LayerId → Bool
  circleRadiusM : Nat → Int
  markerLabeled : Nat → Bool
  sliderOpenDOM : Nat → Bool
  sliderVal : Nat → Int
  labelVal : Nat → Int
  calls : List MapCall

/-- Leaflet `map.addLayer(l)`. -/
def addLayer (m : MapState) (l : LayerId) : MapState :=
  { m with attached := fun x => if x = l then true else m.attached x,
           calls := m.calls ++ [MapCall.addLayer l] }

/-- Leaflet `map.removeLayer(l)`. -/
def removeLayer (m : MapState) (l : LayerId) : MapState :=
  { m with attached := fun x => if x = l then false else m.attached x,
           calls := m.calls ++ [MapCall.removeLayer l] }

/-- Leaflet `circle.setRadius(r)` for location `id`. -/
def setCircleRadius (m : MapState) (id : Nat) (r : Int) : MapState :=
  { m with circleRadiusM := fun j => if j = id then r else m.circleRadiusM j,
           calls := m.calls ++ [MapCall.setCircleRadius id r] }

/-- Leaflet `marker.setIcon(createMarkerIcon(loc, labeled))` for location `id`. -/
def setIcon (m : MapState) (id : Nat) (labeled : Bool) : MapState :=
  { m with markerLabeled := fun j => if j = id then labeled else m.markerLabeled j,
           calls := m.calls ++ [MapCall.setIcon id labeled] }

/-- The DOM writes `popupSlider.value = radius` and
`radiusValueDisplay.innerText = radius` for an open popup of location `id`. -/
def setSliderAndLabel (m : MapState) (id : Nat) (v : Int) : MapState :=
  { m with sliderVal := fun j => if j = id then v else m.sliderVal j,
           labelVal := fun j => if j = id then v else m.labelVal j }

/-- Adding marker `id` to the map if absent (clustering-off branch), with the
add-event handler of the marker mirroring the attachment of the circle. -/
def addMarker (m : MapState) (id : Nat) : MapState :=
  if m.attached (LayerId.marker id) then m
  else
    let m1 := addLayer m (LayerId.marker id)
    if m1.attached (LayerId.circle id) then m1
    else addLayer m1 (LayerId.circle id)

/-- Removing marker `id` from the map if present (clustering-on branch), with
the remove-event handler of the marker mirroring the detachment of the circle. -/
def remMarker (m : MapState) (id : Nat) : MapState :=
  if m.attached (LayerId.marker id) then
    let m1 := removeLayer m (LayerId.marker id)
    if m1.attached (LayerId.circle id) then removeLayer m1 (LayerId.circle id)
    else m1
  else m

/-! Section: the React state and the effects. -/

/-- One iteration of the circle-radii effect body over an entry of `radii`:
skip ids without a layer handle, set the radius of the circle to `radius * 1000`
meters, and if the popup slider is in the DOM update it and the label. -/
def radiiStep (hasHandle : Nat → Bool) (m : MapState) (p : Nat × Int) : MapState :=
  if hasHandle p.1 then
    let m1 := setCircleRadius m p.1 (p.2 * 1000)
    if m1.sliderOpenDOM p.1 then setSliderAndLabel m1 p.1 p.2 else m1
  else m

/-- The `useEffect` on `[radii]` of `App.tsx` (lines 212-229). -/
def radiiEffect (hasHandle : Nat → Bool) (radii : List (Nat × Int))
    (m : MapState) : MapState :=
  radii.foldl (radiiStep hasHandle) m

/-- The `useEffect` on `[showHeatmap]` of `App.tsx` (lines 232-246): attach
or detach the heat layer, guarded by `map.hasLayer`. -/
def heatmapEffect (showHeatmap : Bool) (m : MapState) : MapState :=
  if showHeatmap then
    if m.attached LayerId.heat then m else addLayer m LayerId.heat
  else
    if m.attached LayerId.heat then removeLayer m LayerId.heat else m

/-- The `useEffect` on `[showLabels]` of `App.tsx` (lines 260-268): rebuild
the icon of every catalog marker. -/
def labelsEffect (ids : List Nat) (showLabels : Bool) (m : MapState) : MapState :=
  ids.foldl (fun acc id => setIcon acc id showLabels) m

/-- The `useEffect` on `[isClusteringEnabled]` of `App.tsx` (lines 271-299):
remove every individually-attached marker then attach the cluster group, or
detach the cluster group then attach every marker, each `addLayer`/
`removeLayer` guarded by `map.hasLayer`. -/
def clusteringEffect (ids : List Nat) (enabled : Bool) (m : MapState) : MapState :=
  if enabled then
    let m1 := ids.foldl remMarker m
    if m1.attached LayerId.cluster then m1 else addLayer m1 LayerId.cluster
  else
    let m1 := if m.attached LayerId.cluster then removeLayer m LayerId.cluster else m
    ids.foldl addMarker m1

/-- State update of `window.updateRadius` (lines 91-93 of `App.tsx`):
`setRadii(prev => ({ ...prev, [id]: Number(radius) }))`.  A present key has
its value replaced; an absent key is inserted. -/
def updateRadius (prev : List (Nat × Int)) (id : Nat) (v : Int) :
    List (Nat × Int) :=
  if id ∈ prev.map Prod.fst then
    prev.map (fun p => if p.1 = id then (id, v) else p)
  else prev ++ [(id, v)]

/-- The radius-synchronization `useEffect` body (lines 249-257 of
`App.tsx`): rebuild the whole map with every key sent to `uniformRadius`. -/
def syncRadii (radii : List (Nat × Int)) (uniformRadius : Int) :
    List (Nat × Int) :=
  radii.map (fun p => (p.1, uniformRadius))

/-- First lookup of a key, the JS property read `radii[id]`. -/
def jsLookup : List (Nat × Int) → Nat → Option Int
  | [], _ => none
  | p :: t, id => if p.1 = id then some p.2 else jsLookup t id

/-- Whether `layerRefs.current[id]` exists; it does exactly for catalog ids. -/
def hasHandle (LOCATIONS : List LocationData) (id : Nat) : Bool :=
  LOCATIONS.any (fun loc => loc.id == id)

def catalogIds (LOCATIONS : List LocationData) : List Nat :=
  LOCATIONS.map LocationData.id

/-- The full component state. -/
structure AppState where
  searchTerm : String
  radii : List (Nat × Int)
  isSynced : Bool
  uniformRadius : Int
  showLabels : Bool
  showHeatmap : Bool
  isClusteringEnabled : Bool
  mapSt : MapState

/-- User events dispatched by the Control Panel or a popup slider. -/
inductive Op
  | setSearchTerm (q : String)
  | updateRadius (id : Nat) (v : Int)
  | setUniformRadius (v : Int)
  | setIsSynced (b : Bool)
  | setShowLabels (b : Bool)
  | setShowHeatmap (b : Bool)
  | setIsClusteringEnabled (b : Bool)

/-- One user event followed by the effects React re-runs for it.  A `useState`
setter receiving a value identical (`Object.is`) to the current one bails
out, and an effect re-runs only when a dependency changed; `setRadii` always
stores a freshly-built object, so the radii effect re-runs after every
`setRadii`. -/
def stepOp (LOCATIONS : List LocationData) (op : Op) (s : AppState) : AppState :=
  match op with
  | Op.setSearchTerm q => { s with searchTerm := q }
  | Op.updateRadius id v =>
      let radii' := updateRadius s.radii id v
      { s with radii := radii',
               mapSt := radiiEffect (hasHandle LOCATIONS) radii' s.mapSt }
  | Op.setUniformRadius v =>
      if v = s.uniformRadius then s
      else if s.isSynced then
        let radii' := syncRadii s.radii v
        { s with uniformRadius := v, radii := radii',
                 mapSt := radiiEffect (hasHandle LOCATIONS) radii' s.mapSt }
      else { s with uniformRadius := v }
  | Op.setIsSynced b =>
      if b = s.isSynced then s
      else if b then
        let radii' := syncRadii s.radii s.uniformRadius
        { s with isSynced := b, radii := radii',
                 mapSt := radiiEffect (hasHandle LOCATIONS) radii' s.mapSt }
      else { s with isSynced := b }
  | Op.setShowLabels b =>
      if b = s.showLabels then s
      else { s with showLabels := b,
                    mapSt := labelsEffect (catalogIds LOCATIONS) b s.mapSt }
  | Op.setShowHeatmap b =>
      if b = s.showHeatmap then s
      else { s with showHeatmap := b, mapSt := heatmapEffect b s.mapSt }
  | Op.setIsClusteringEnabled b =>
      if b = s.isClusteringEnabled then s
      else { s with isClusteringEnabled := b,
                    mapSt := clusteringEffect (catalogIds LOCATIONS) b s.mapSt }

/-- The Leaflet state right after the mount effects settle: the cluster group
(holding every marker) is the only attached layer, every circle is drawn at
the default 10 km, icons carry labels, no popup is open. -/
def initMapState : MapState :=
  { attached := fun l => match l with | LayerId.cluster => true | _ => false,
    circleRadiusM := fun _ => 10 * 1000,
    markerLabeled := fun _ => true,
    sliderOpenDOM := fun _ => false,
    sliderVal := fun _ => 10,
    labelVal := fun _ => 10,
    calls := [] }

/-- The component state right after the catalog loads and the mount effects
settle (`initialRadii[loc.id] = 10` for every catalog location). -/
def initState (LOCATIONS : List LocationData) : AppState :=
  { searchTerm := "",
    radii := LOCATIONS.map (fun loc => (loc.id, 10)),
    isSynced := false,
    uniformRadius := 10,
    showLabels := true,
    showHeatmap := false,
    isClusteringEnabled := true,
    mapSt := initMapState }

/-- A whole session: the initial state followed by a sequence of events. -/
def runOps (LOCATIONS : List LocationData) (ops : List Op) : AppState :=
  ops.foldl (fun s op => stepOp LOCATIONS op s) (initState LOCATIONS)

/-! Section: lemmas about the circle-radii effect. -/

theorem radiiEffect_nil (h : Nat → Bool) (m : MapState) :
    radiiEffect h [] m = m := rfl

theorem radiiEffect_cons (h : Nat → Bool) (p : Nat × Int) (t : List (Nat × Int))
    (m : MapState) :
    radiiEffect h (p :: t) m = radiiEffect h t (radiiStep h m p) := rfl

theorem radiiStep_sliderOpen (h : Nat → Bool) (m : MapState) (p : Nat × Int) :
    (radiiStep h m p).sliderOpenDOM = m.sliderOpenDOM := by
  simp only [radiiStep, setCircleRadius, setSliderAndLabel]
  split_ifs <;> rfl

theorem radiiStep_attached (h : Nat → Bool) (m : MapState) (p : Nat × Int) :
    (radiiStep h m p).attached = m.attached := by
  simp only [radiiStep, setCircleRadius, setSliderAndLabel]
  split_ifs <;> rfl

theorem radiiEffect_sliderOpen (h : Nat → Bool) (l : List (Nat × Int)) :
    ∀ m : MapState, (radiiEffect h l m).sliderOpenDOM = m.sliderOpenDOM := by
  induction l with
  | nil => intro m; rfl
  | cons p t ih =>
    intro m
    rw [radiiEffect_cons, ih, radiiStep_sliderOpen]

theorem radiiEffect_attached (h : Nat → Bool) (l : List (Nat × Int)) :
    ∀ m : MapState, (radiiEffect h l m).attached = m.attached := by
  induction l with
  | nil => intro m; rfl
  | cons p t ih =>
    intro m
    rw [radiiEffect_cons, ih, radiiStep_attached]

theorem radiiStep_skip (h : Nat → Bool) (m : MapState) (p : Nat × Int) (j : Nat)
    (hp : p.1 = j → h j = false) :
    (radiiStep h m p).circleRadiusM j = m.circleRadiusM j ∧
    (radiiStep h m p).sliderVal j = m.sliderVal j ∧
    (radiiStep h m p).labelVal j = m.labelVal j := by
  by_cases hpj : p.1 = j
  · have hh : h p.1 = false := by rw [hpj]; exact hp hpj
    simp [radiiStep, hh]
  · have hj : j ≠ p.1 := fun hh => hpj hh.symm
    simp only [radiiStep, setCircleRadius, setSliderAndLabel]
    split_ifs <;> simp [hj]

theorem radiiEffect_skip (h : Nat → Bool) (l : List (Nat × Int)) (j : Nat)
    (hl : ∀ p ∈ l, p.1 = j → h j = false) :
    ∀ m : MapState,
      (radiiEffect h l m).circleRadiusM j = m.circleRadiusM j ∧
      (radiiEffect h l m).sliderVal j = m.sliderVal j ∧
      (radiiEffect h l m).labelVal j = m.labelVal j := by
  induction l with
  | nil => intro m; exact ⟨rfl, rfl, rfl⟩
  | cons p t ih =>
    intro m
    rw [radiiEffect_cons]
    have hstep := radiiStep_skip h m p j (hl p (List.mem_cons_self p t))
    have htail := ih (fun q hq => hl q (List.mem_cons_of_mem p hq)) (radiiStep h m p)
    exact ⟨htail.1.trans hstep.1, htail.2.1.trans hstep.2.1, htail.2.2.trans hstep.2.2⟩

theorem radiiStep_hit (h : Nat → Bool) (m : MapState) (X : Nat) (r : Int)
    (hh : h X = true) :
    (radiiStep h m (X, r)).circleRadiusM X = r * 1000 ∧
    (m.sliderOpenDOM X = true →
      (radiiStep h m (X, r)).sliderVal X = r ∧
      (radiiStep h m (X, r)).labelVal X = r) := by
  by_cases hs : m.sliderOpenDOM X = true
  · simp [radiiStep, hh, setCircleRadius, setSliderAndLabel, hs]
  · simp [radiiStep, hh, setCircleRadius, setSliderAndLabel, hs]

theorem radiiEffect_hit (h : Nat → Bool) (X : Nat) (r : Int) :
    ∀ (l : List (Nat × Int)) (m : MapState), (l.map Prod.fst).Nodup →
      (X, r) ∈ l → h X = true →
      (radiiEffect h l m).circleRadiusM X = r * 1000 ∧
      (m.sliderOpenDOM X = true →
        (radiiEffect h l m).sliderVal X = r ∧ (radiiEffect h l m).labelVal X = r) := by
  intro l
  induction l with
  | nil => intro m _ hmem _; cases hmem
  | cons p t ih =>
    intro m hnd hmem hh
    have hnd' := List.nodup_cons.mp hnd
    rw [radiiEffect_cons]
    rcases List.mem_cons.mp hmem with heq | hmem'
    · cases heq.symm
      have hXt : X ∉ t.map Prod.fst := hnd'.1
      have hskip := radiiEffect_skip h t X
        (fun q hq hqX => absurd (List.mem_map.mpr ⟨q, hq, hqX⟩) hXt)
        (radiiStep h m (X, r))
      have hstep := radiiStep_hit h m X r hh
      refine ⟨hskip.1.trans hstep.1, fun hs => ?_⟩
      exact ⟨hskip.2.1.trans ((hstep.2 hs).1), hskip.2.2.trans ((hstep.2 hs).2)⟩
    · have hXne : p.1 ≠ X := by
        intro hpe
        exact hnd'.1 (hpe ▸ List.mem_map.mpr ⟨(X, r), hmem', rfl⟩)
      have hslider : (radiiStep h m p).sliderOpenDOM X = m.sliderOpenDOM X :=
        congrFun (radiiStep_sliderOpen h m p) X
      have := ih (radiiStep h m p) hnd'.2 hmem' hh
      exact ⟨this.1, fun hs => this.2 (hslider.trans hs)⟩

/-! Section: lemmas about the radii-map operations. -/

theorem updateRadius_self_mem (l : List (Nat × Int)) (id : Nat) (v : Int) :
    (id, v) ∈ updateRadius l id v := by
  unfold updateRadius
  split_ifs with h
  · rcases List.mem_map.mp h with ⟨p, hp, hfst⟩
    exact List.mem_map.mpr ⟨p, hp, by simp [hfst]⟩
  · exact List.mem_append.mpr (Or.inr (List.mem_singleton.mpr rfl))

theorem updateRadius_keys_of_mem (l : List (Nat × Int)) (id : Nat) (v : Int)
    (h : id ∈ l.map Prod.fst) :
    (updateRadius l id v).map Prod.fst = l.map Prod.fst := by
  unfold updateRadius
  rw [if_pos h, List.map_map]
  apply List.map_congr_left
  intro p _
  by_cases hp : p.1 = id
  · simp [Function.comp, hp]
  · simp [Function.comp, hp]

theorem updateRadius_not_mem (l : List (Nat × Int)) (id : Nat) (v : Int)
    (h : id ∉ l.map Prod.fst) :
    updateRadius l id v = l ++ [(id, v)] := by
  unfold updateRadius
  rw [if_neg h]

theorem updateRadius_keys_nodup (l : List (Nat × Int)) (id : Nat) (v : Int)
    (h : (l.map Prod.fst).Nodup) :
    ((updateRadius l id v).map Prod.fst).Nodup := by
  by_cases hm : id ∈ l.map Prod.fst
  · rw [updateRadius_keys_of_mem l id v hm]; exact h
  · rw [updateRadius_not_mem l id v hm, List.map_append]
    refine List.Nodup.append h (List.nodup_singleton id) ?_
    intro a ha hb
    rw [List.mem_singleton.mp hb] at ha
    exact hm ha

theorem syncRadii_keys (radii : List (Nat × Int)) (u : Int) :
    (syncRadii radii u).map Prod.fst = radii.map Prod.fst := by
  unfold syncRadii
  rw [List.map_map]
  rfl

theorem syncRadii_val (radii : List (Nat × Int)) (u : Int) :
    ∀ p ∈ syncRadii radii u, p.2 = u := by
  intro p hp
  rcases List.mem_map.mp hp with ⟨q, _, rfl⟩
  rfl

/-- Claim C10: the synchronization bulk overwrite preserves the key list of
`RadiusMap` exactly — including keys that are not catalog ids — changing only
the values (all to the uniform value) and the entry count not at all. -/
theorem sync_overwrite_preserves_keys (radii : List (Nat × Int)) (u : Int) :
    (syncRadii radii u).map Prod.fst = radii.map Prod.fst ∧
    (∀ p ∈ syncRadii radii u, p.2 = u) ∧
    (syncRadii radii u).length = radii.length :=
  ⟨syncRadii_keys radii u, syncRadii_val radii u, by simp [syncRadii]⟩

/-- Witness for C10 on a map holding the non-catalog key 999. -/
theorem sync_overwrite_preserves_keys_witness :
    (syncRadii [(1, 10), (999, 7)] 15).map Prod.fst =
      ([(1, 10), (999, 7)] : List (Nat × Int)).map Prod.fst ∧
    (∀ p ∈ syncRadii [(1, 10), (999, 7)] 15, p.2 = 15) ∧
    (syncRadii [(1, 10), (999, 7)] 15).length = 2 := by
  have h := sync_overwrite_preserves_keys [(1, 10), (999, 7)] 15
  exact ⟨h.1, h.2.1, h.2.2.trans (by decide)⟩

theorem jsLookup_init (cat : List LocationData) :
    ∀ loc ∈ cat, jsLookup (cat.map (fun l => (l.id, 10))) loc.id = some 10 := by
  induction cat with
  | nil => intro loc h; cases h
  | cons l t ih =>
    intro loc hloc
    simp only [List.map_cons, jsLookup]
    split_ifs with h
    · rfl
    · rcases List.mem_cons.mp hloc with rfl | hmem
      · exact absurd rfl h
      · exact ih loc hmem

/-- Claim C9: when the catalog loads, every catalog location gets a
`RadiusMap` entry at the default 10 km — one entry per location, every entry
valued 10, and no entry for a non-catalog id. -/
theorem init_radii_default (cat : List LocationData) :
    (∀ loc ∈ cat, jsLookup (initState cat).radii loc.id = some 10) ∧
    (∀ p ∈ (initState cat).radii, p.2 = 10 ∧ p.1 ∈ catalogIds cat) ∧
    (initState cat).radii.length = cat.length := by
  refine ⟨jsLookup_init cat, ?_, by simp [initState]⟩
  intro p hp
  rcases List.mem_map.mp hp with ⟨l, hl, rfl⟩
  exact ⟨rfl, List.mem_map.mpr ⟨l, hl, rfl⟩⟩

/-- Witness for C9 at the three-city catalog. -/
theorem init_radii_default_witness :
    (londonLoc ∈ cat3 ∧ jsLookup (initState cat3).radii londonLoc.id = some 10) ∧
    (((1 : Nat), (10 : Int)) ∈ (initState cat3).radii ∧
      ((1 : Nat), (10 : Int)).2 = 10 ∧ ((1 : Nat), (10 : Int)).1 ∈ catalogIds cat3) ∧
    (initState cat3).radii.length = cat3.length := by
  have h := init_radii_default cat3
  exact ⟨⟨by decide, h.1 londonLoc (by decide)⟩,
    ⟨by decide, h.2.1 ((1 : Nat), (10 : Int)) (by decide)⟩, h.2.2⟩

/-! Section: C1, the synchronization bulk overwrite. -/

/-- Claim C1: with synchronization on, immediately after a change of the
uniform radius — and immediately after synchronization flips to true — every
entry of `RadiusMap` equals the uniform value, and the update is one bulk
replace of the whole map (the new map is the old one with every key sent to
the uniform value in a single `setRadii`). -/
theorem sync_bulk_overwrite (cat : List LocationData) (s : AppState) (v : Int) :
    (s.isSynced = true → v ≠ s.uniformRadius →
      (stepOp cat (Op.setUniformRadius v) s).radii =
        s.radii.map (fun p => (p.1, v)) ∧
      (stepOp cat (Op.setUniformRadius v) s).uniformRadius = v ∧
      ∀ p ∈ (stepOp cat (Op.setUniformRadius v) s).radii, p.2 = v) ∧
    (s.isSynced = false →
      (stepOp cat (Op.setIsSynced true) s).radii =
        s.radii.map (fun p => (p.1, s.uniformRadius)) ∧
      (stepOp cat (Op.setIsSynced true) s).isSynced = true ∧
      ∀ p ∈ (stepOp cat (Op.setIsSynced true) s).radii, p.2 = s.uniformRadius) := by
  constructor
  · intro hs hv
    have hstep : stepOp cat (Op.setUniformRadius v) s =
        { s with uniformRadius := v, radii := syncRadii s.radii v,
                 mapSt := radiiEffect (hasHandle cat) (syncRadii s.radii v) s.mapSt } := by
      simp [stepOp, hv, hs]
    rw [hstep]
    exact ⟨rfl, rfl, syncRadii_val s.radii v⟩
  · intro hs
    have hstep : stepOp cat (Op.setIsSynced true) s =
        { s with isSynced := true, radii := syncRadii s.radii s.uniformRadius,
                 mapSt := radiiEffect (hasHandle cat)
                   (syncRadii s.radii s.uniformRadius) s.mapSt } := by
      simp [stepOp, hs]
    rw [hstep]
    exact ⟨rfl, rfl, syncRadii_val s.radii s.uniformRadius⟩

/-- The synced state of the spec scenario (catalog ids `{1,2,3}`). -/
def stSync : AppState := { initState cat3 with isSynced := true }

/-- Witness for C1: with ids `{1,2,3}` and uniform radius 15, the map becomes
`{1:15, 2:15, 3:15}` in one update; flipping sync on broadcasts 10. -/
theorem sync_bulk_overwrite_witness :
    (stSync.isSynced = true ∧ (15 : Int) ≠ stSync.uniformRadius ∧
      (stepOp cat3 (Op.setUniformRadius 15) stSync).radii =
        [(1, 15), (2, 15), (3, 15)]) ∧
    ((initState cat3).isSynced = false ∧
      (stepOp cat3 (Op.setIsSynced true) (initState cat3)).radii =
        [(1, 10), (2, 10), (3, 10)]) := by
  have h1 := (sync_bulk_overwrite cat3 stSync 15).1 rfl (by decide)
  have h2 := (sync_bulk_overwrite cat3 (initState cat3) 0).2 rfl
  exact ⟨⟨rfl, by decide, h1.1.trans (by decide)⟩, rfl, h2.1.trans (by decide)⟩

/-! Section: C5, a radius change reaches the drawn circle and the open popup. -/

theorem hasHandle_of_mem (cat : List LocationData) (id : Nat)
    (h : id ∈ catalogIds cat) : hasHandle cat id = true := by
  rcases List.mem_map.mp h with ⟨loc, hl, rfl⟩
  exact List.any_eq_true.mpr ⟨loc, hl, by simp⟩

theorem hasHandle_eq_false (cat : List LocationData) (id : Nat)
    (h : id ∉ catalogIds cat) : hasHandle cat id = false := by
  rw [Bool.eq_false_iff]
  intro hc
  rcases List.any_eq_true.mp hc with ⟨loc, hl, hb⟩
  exact h (List.mem_map.mpr ⟨loc, hl, by simpa using hb⟩)

/-- Claim C5: after `setRadius(X, r)` for a catalog location `X`, circle `X`
is drawn at `r * 1000` meters, and if the popup of `X` is open its slider position
and numeric label both show `r`. -/
theorem radius_change_updates_circle (cat : List LocationData) (s : AppState)
    (X : Nat) (r : Int) (hnd : (s.radii.map Prod.fst).Nodup)
    (hX : X ∈ catalogIds cat) :
    (stepOp cat (Op.updateRadius X r) s).mapSt.circleRadiusM X = r * 1000 ∧
    (s.mapSt.sliderOpenDOM X = true →
      (stepOp cat (Op.updateRadius X r) s).mapSt.sliderVal X = r ∧
      (stepOp cat (Op.updateRadius X r) s).mapSt.labelVal X = r) := by
  have hmap : (stepOp cat (Op.updateRadius X r) s).mapSt =
      radiiEffect (hasHandle cat) (updateRadius s.radii X r) s.mapSt := rfl
  rw [hmap]
  exact radiiEffect_hit (hasHandle cat) X r (updateRadius s.radii X r) s.mapSt
    (updateRadius_keys_nodup s.radii X r hnd) (updateRadius_self_mem s.radii X r)
    (hasHandle_of_mem cat X hX)

/-- The Leaflet state with the London popup (slider `radius-1`) open. -/
def mapStW : MapState := { initMapState with sliderOpenDOM := fun j => j == 1 }

def stW : AppState := { initState cat1 with mapSt := mapStW }

/-- Witness for C5: setting radius 25 for id 1 draws circle 1 at 25000 meters
and the open popup shows 25. -/
theorem radius_change_updates_circle_witness :
    ((stW.radii.map Prod.fst).Nodup ∧ (1 : Nat) ∈ catalogIds cat1) ∧
    ((stepOp cat1 (Op.updateRadius 1 25) stW).mapSt.circleRadiusM 1 = 25 * 1000 ∧
      (stW.mapSt.sliderOpenDOM 1 = true →
        (stepOp cat1 (Op.updateRadius 1 25) stW).mapSt.sliderVal 1 = 25 ∧
        (stepOp cat1 (Op.updateRadius 1 25) stW).mapSt.labelVal 1 = 25)) :=
  ⟨⟨by decide, by decide⟩,
    radius_change_updates_circle cat1 stW 1 25 (by decide) (by decide)⟩

/-! Section: C3, setRadius with an unknown id. -/

/-- Counterexample to C3 as stated: `setRadius(999, 5)` on the one-location
catalog `{1}` does not leave `RadiusMap` unchanged — the entry `999 ↦ 5` is
inserted. -/
theorem setRadius_unknown_not_noop :
    (stepOp cat1 (Op.updateRadius 999 5) (initState cat1)).radii ≠
      (initState cat1).radii := by decide

/-- Amended C3: `setRadius(id, v)` for an id outside both the catalog and the
radius map reports no failure and issues no circle or popup update for that
id (there is no layer handle), leaves the search term, the sync flag, the
uniform radius and the three visualization flags unchanged — but it is not a
no-op on `RadiusMap`: the entry `id ↦ v` is appended. -/
theorem setRadius_unknown_id (cat : List LocationData) (s : AppState)
    (id : Nat) (v : Int) (hk : id ∉ s.radii.map Prod.fst)
    (hc : id ∉ catalogIds cat) :
    (stepOp cat (Op.updateRadius id v) s).radii = s.radii ++ [(id, v)] ∧
    (stepOp cat (Op.updateRadius id v) s).searchTerm = s.searchTerm ∧
    (stepOp cat (Op.updateRadius id v) s).isSynced = s.isSynced ∧
    (stepOp cat (Op.updateRadius id v) s).uniformRadius = s.uniformRadius ∧
    (stepOp cat (Op.updateRadius id v) s).showLabels = s.showLabels ∧
    (stepOp cat (Op.updateRadius id v) s).showHeatmap = s.showHeatmap ∧
    (stepOp cat (Op.updateRadius id v) s).isClusteringEnabled = s.isClusteringEnabled ∧
    (stepOp cat (Op.updateRadius id v) s).mapSt.circleRadiusM id = s.mapSt.circleRadiusM id ∧
    (stepOp cat (Op.updateRadius id v) s).mapSt.sliderVal id = s.mapSt.sliderVal id ∧
    (stepOp cat (Op.updateRadius id v) s).mapSt.labelVal id = s.mapSt.labelVal id := by
  have hradii : (stepOp cat (Op.updateRadius id v) s).radii = s.radii ++ [(id, v)] := by
    have : (stepOp cat (Op.updateRadius id v) s).radii = updateRadius s.radii id v := rfl
    rw [this, updateRadius_not_mem s.radii id v hk]
  have hh : hasHandle cat id = false := hasHandle_eq_false cat id hc
  have hmap : (stepOp cat (Op.updateRadius id v) s).mapSt =
      radiiEffect (hasHandle cat) (updateRadius s.radii id v) s.mapSt := rfl
  have hskip := radiiEffect_skip (hasHandle cat) (updateRadius s.radii id v) id
    (fun _ _ _ => hh) s.mapSt
  rw [hmap]
  exact ⟨hradii, rfl, rfl, rfl, rfl, rfl, rfl, hskip.1, hskip.2.1, hskip.2.2⟩

/-- Witness for the amended C3 at `setRadius(999, 5)` on catalog `{1}`. -/
theorem setRadius_unknown_id_witness :
    ((999 : Nat) ∉ (initState cat1).radii.map Prod.fst ∧
      (999 : Nat) ∉ catalogIds cat1) ∧
    ((stepOp cat1 (Op.updateRadius 999 5) (initState cat1)).radii =
        (initState cat1).radii ++ [(999, 5)] ∧
      (stepOp cat1 (Op.updateRadius 999 5) (initState cat1)).searchTerm =
        (initState cat1).searchTerm ∧
      (stepOp cat1 (Op.updateRadius 999 5) (initState cat1)).isSynced =
        (initState cat1).isSynced ∧
      (stepOp cat1 (Op.updateRadius 999 5) (initState cat1)).uniformRadius =
        (initState cat1).uniformRadius ∧
      (stepOp cat1 (Op.updateRadius 999 5) (initState cat1)).showLabels =
        (initState cat1).showLabels ∧
      (stepOp cat1 (Op.updateRadius 999 5) (initState cat1)).showHeatmap =
        (initState cat1).showHeatmap ∧
      (stepOp cat1 (Op.updateRadius 999 5) (initState cat1)).isClusteringEnabled =
        (initState cat1).isClusteringEnabled ∧
      (stepOp cat1 (Op.updateRadius 999 5) (initState cat1)).mapSt.circleRadiusM 999 =
        (initState cat1).mapSt.circleRadiusM 999 ∧
      (stepOp cat1 (Op.updateRadius 999 5) (initState cat1)).mapSt.sliderVal 999 =
        (initState cat1).mapSt.sliderVal 999 ∧
      (stepOp cat1 (Op.updateRadius 999 5) (initState cat1)).mapSt.labelVal 999 =
        (initState cat1).mapSt.labelVal 999) :=
  ⟨⟨by decide, by decide⟩,
    setRadius_unknown_id cat1 (initState cat1) 999 5 (by decide) (by decide)⟩

/-! Section: C8, visualization flags and RadiusMap do not interfere. -/

/-- Claim C8: changing any visualization flag leaves `RadiusMap` unchanged,
and the operations that change `RadiusMap` (`setRadius`, `setUniformRadius`,
`setSynchronized`) leave all three visualization flags unchanged. -/
theorem flags_radii_frame (cat : List LocationData) (s : AppState) (b : Bool)
    (id : Nat) (v : Int) :
    ((stepOp cat (Op.setShowLabels b) s).radii = s.radii) ∧
    ((stepOp cat (Op.setShowHeatmap b) s).radii = s.radii) ∧
    ((stepOp cat (Op.setIsClusteringEnabled b) s).radii = s.radii) ∧
    ((stepOp cat (Op.updateRadius id v) s).showLabels = s.showLabels ∧
      (stepOp cat (Op.updateRadius id v) s).showHeatmap = s.showHeatmap ∧
      (stepOp cat (Op.updateRadius id v) s).isClusteringEnabled = s.isClusteringEnabled) ∧
    ((stepOp cat (Op.setUniformRadius v) s).showLabels = s.showLabels ∧
      (stepOp cat (Op.setUniformRadius v) s).showHeatmap = s.showHeatmap ∧
      (stepOp cat (Op.setUniformRadius v) s).isClusteringEnabled = s.isClusteringEnabled) ∧
    ((stepOp cat (Op.setIsSynced b) s).showLabels = s.showLabels ∧
      (stepOp cat (Op.setIsSynced b) s).showHeatmap = s.showHeatmap ∧
      (stepOp cat (Op.setIsSynced b) s).isClusteringEnabled = s.isClusteringEnabled) := by
  refine ⟨?_, ?_, ?_, ⟨rfl, rfl, rfl⟩, ?_, ?_⟩
  · simp only [stepOp]; split_ifs <;> rfl
  · simp only [stepOp]; split_ifs <;> rfl
  · simp only [stepOp]; split_ifs <;> rfl
  · simp only [stepOp]; split_ifs <;> exact ⟨rfl, rfl, rfl⟩
  · simp only [stepOp]; split_ifs <;> exact ⟨rfl, rfl, rfl⟩

/-! Section: C7, toggling to the current value is a no-op. -/

/-- Claim C7: setting the heatmap, labels or clustering toggle to the value
it already has re-runs no effect and issues no Map Adapter call (the resulting
state, call log included, is the previous state); and the `hasLayer` guards
of the heatmap effect mean it never adds the heat layer when attached nor removes
it when detached — when the attachment already matches the flag it issues
nothing. -/
theorem toggle_idempotent (cat : List LocationData) (s : AppState)
    (m : MapState) (b : Bool) :
    (s.showHeatmap = b → stepOp cat (Op.setShowHeatmap b) s = s) ∧
    (s.showLabels = b → stepOp cat (Op.setShowLabels b) s = s) ∧
    (s.isClusteringEnabled = b → stepOp cat (Op.setIsClusteringEnabled b) s = s) ∧
    (m.attached LayerId.heat = b → heatmapEffect b m = m) := by
  refine ⟨fun h => ?_, fun h => ?_, fun h => ?_, fun h => ?_⟩
  · simp [stepOp, h]
  · simp [stepOp, h]
  · simp [stepOp, h]
  · cases b
    · simp [heatmapEffect, h]
    · simp [heatmapEffect, h]

/-- Witness for C7 at the post-mount state (heatmap off, labels on,
clustering on, heat layer detached). -/
theorem toggle_idempotent_witness :
    ((initState cat1).showHeatmap = false ∧
      stepOp cat1 (Op.setShowHeatmap false) (initState cat1) = initState cat1) ∧
    ((initState cat1).showLabels = true ∧
      stepOp cat1 (Op.setShowLabels true) (initState cat1) = initState cat1) ∧
    ((initState cat1).isClusteringEnabled = true ∧
      stepOp cat1 (Op.setIsClusteringEnabled true) (initState cat1) = initState cat1) ∧
    (initMapState.attached LayerId.heat = false ∧
      heatmapEffect false initMapState = initMapState) := by
  have h1 := toggle_idempotent cat1 (initState cat1) initMapState false
  have h2 := toggle_idempotent cat1 (initState cat1) initMapState true
  exact ⟨⟨rfl, h1.1 rfl⟩, ⟨rfl, h2.2.1 rfl⟩, ⟨rfl, h2.2.2.1 rfl⟩,
    rfl, h1.2.2.2 rfl⟩

/-! Section: C6, exactly one marker rendering mode. -/

theorem setIcon_attached (m : MapState) (id : Nat) (b : Bool) :
    (setIcon m id b).attached = m.attached := rfl

theorem labelsEffect_attached (ids : List Nat) (b : Bool) :
    ∀ m : MapState, (labelsEffect ids b m).attached = m.attached := by
  induction ids with
  | nil => intro m; rfl
  | cons i t ih =>
    intro m
    have hc : labelsEffect (i :: t) b m = labelsEffect t b (setIcon m i b) := rfl
    rw [hc, ih, setIcon_attached]

theorem heatmapEffect_attached_ne (b : Bool) (m : MapState) (x : LayerId)
    (hx : x ≠ LayerId.heat) : (heatmapEffect b m).attached x = m.attached x := by
  unfold heatmapEffect
  split_ifs <;> simp [addLayer, removeLayer, hx]

theorem remMarker_attached_of_ne_circle (m : MapState) (i : Nat) (x : LayerId)
    (hx : x ≠ LayerId.circle i) :
    (remMarker m i).attached x =
      if x = LayerId.marker i then false else m.attached x := by
  unfold remMarker
  split_ifs <;> simp_all [removeLayer] <;> split_ifs <;> simp_all

theorem addMarker_attached_of_ne_circle (m : MapState) (i : Nat) (x : LayerId)
    (hx : x ≠ LayerId.circle i) :
    (addMarker m i).attached x =
      if x = LayerId.marker i then true else m.attached x := by
  unfold addMarker
  split_ifs <;> simp_all [addLayer] <;> split_ifs <;> simp_all

theorem remFold_marker (ids : List Nat) :
    ∀ (m : MapState) (j : Nat),
      (ids.foldl remMarker m).attached (LayerId.marker j) =
        if j ∈ ids then false else m.attached (LayerId.marker j) := by
  induction ids with
  | nil => intro m j; simp
  | cons i t ih =>
    intro m j
    rw [List.foldl_cons, ih,
      remMarker_attached_of_ne_circle m i (LayerId.marker j) (by simp)]
    by_cases hj : j = i <;> by_cases hjt : j ∈ t <;>
      simp [hj, hjt, List.mem_cons]

theorem remFold_cluster (ids : List Nat) :
    ∀ m : MapState,
      (ids.foldl remMarker m).attached LayerId.cluster =
        m.attached LayerId.cluster := by
  induction ids with
  | nil => intro m; rfl
  | cons i t ih =>
    intro m
    rw [List.foldl_cons, ih,
      remMarker_attached_of_ne_circle m i LayerId.cluster (by simp)]
    simp

theorem addFold_marker (ids : List Nat) :
    ∀ (m : MapState) (j : Nat),
      (ids.foldl addMarker m).attached (LayerId.marker j) =
        if j ∈ ids then true else m.attached (LayerId.marker j) := by
  induction ids with
  | nil => intro m j; simp
  | cons i t ih =>
    intro m j
    rw [List.foldl_cons, ih,
      addMarker_attached_of_ne_circle m i (LayerId.marker j) (by simp)]
    by_cases hj : j = i <;> by_cases hjt : j ∈ t <;>
      simp [hj, hjt, List.mem_cons]

theorem addFold_cluster (ids : List Nat) :
    ∀ m : MapState,
      (ids.foldl addMarker m).attached LayerId.cluster =
        m.attached LayerId.cluster := by
  induction ids with
  | nil => intro m; rfl
  | cons i t ih =>
    intro m
    rw [List.foldl_cons, ih,
      addMarker_attached_of_ne_circle m i LayerId.cluster (by simp)]
    simp

theorem clusteringEffect_cluster (ids : List Nat) (b : Bool) (m : MapState) :
    (clusteringEffect ids b m).attached LayerId.cluster = b := by
  cases b
  · have hc : clusteringEffect ids false m =
        ids.foldl addMarker
          (if m.attached LayerId.cluster then removeLayer m LayerId.cluster
           else m) := by
      simp [clusteringEffect]
    rw [hc, addFold_cluster]
    split_ifs with h
    · simp [removeLayer]
    · simpa using h
  · have hc : clusteringEffect ids true m =
        if (ids.foldl remMarker m).attached LayerId.cluster
        then ids.foldl remMarker m
        else addLayer (ids.foldl remMarker m) LayerId.cluster := by
      simp [clusteringEffect]
    rw [hc]
    split_ifs with h
    · exact h
    · simp [addLayer]

theorem clusteringEffect_marker (ids : List Nat) (b : Bool) (m : MapState)
    (j : Nat) (hj : j ∈ ids) :
    (clusteringEffect ids b m).attached (LayerId.marker j) = !b := by
  cases b
  · have hc : clusteringEffect ids false m =
        ids.foldl addMarker
          (if m.attached LayerId.cluster then removeLayer m LayerId.cluster
           else m) := by
      simp [clusteringEffect]
    rw [hc, addFold_marker]
    simp [hj]
  · have hc : clusteringEffect ids true m =
        if (ids.foldl remMarker m).attached LayerId.cluster
        then ids.foldl remMarker m
        else addLayer (ids.foldl remMarker m) LayerId.cluster := by
      simp [clusteringEffect]
    rw [hc]
    split_ifs with h
    · rw [remFold_marker]; simp [hj]
    · simp [addLayer, remFold_marker, hj]

/-- The mutual-exclusion invariant of the marker rendering modes: either the
cluster group is attached and no catalog marker is individually attached, or
the cluster group is detached and every catalog marker is individually
attached. -/
def renderModeOK (LOCATIONS : List LocationData) (m : MapState) : Prop :=
  (m.attached LayerId.cluster = true ∧
    ∀ loc ∈ LOCATIONS, m.attached (LayerId.marker loc.id) = false) ∨
  (m.attached LayerId.cluster = false ∧
    ∀ loc ∈ LOCATIONS, m.attached (LayerId.marker loc.id) = true)

theorem renderModeOK_congr (cat : List LocationData) (m m' : MapState)
    (hc : m'.attached LayerId.cluster = m.attached LayerId.cluster)
    (hm : ∀ j : Nat,
      m'.attached (LayerId.marker j) = m.attached (LayerId.marker j)) :
    renderModeOK cat m → renderModeOK cat m' := by
  rintro (⟨h1, h2⟩ | ⟨h1, h2⟩)
  · exact Or.inl ⟨hc.trans h1, fun loc hl => (hm loc.id).trans (h2 loc hl)⟩
  · exact Or.inr ⟨hc.trans h1, fun loc hl => (hm loc.id).trans (h2 loc hl)⟩

theorem stepOp_renderMode (cat : List LocationData) (op : Op) (s : AppState)
    (h : renderModeOK cat s.mapSt) :
    renderModeOK cat (stepOp cat op s).mapSt := by
  cases op with
  | setSearchTerm q => exact h
  | updateRadius id v =>
    exact renderModeOK_congr cat s.mapSt _
      (congrFun (radiiEffect_attached _ _ s.mapSt) _)
      (fun j => congrFun (radiiEffect_attached _ _ s.mapSt) _) h
  | setUniformRadius v =>
    simp only [stepOp]
    split_ifs
    · exact h
    · exact renderModeOK_congr cat s.mapSt _
        (congrFun (radiiEffect_attached _ _ s.mapSt) _)
        (fun j => congrFun (radiiEffect_attached _ _ s.mapSt) _) h
    · exact h
  | setIsSynced b =>
    simp only [stepOp]
    split_ifs
    · exact h
    · exact renderModeOK_congr cat s.mapSt _
        (congrFun (radiiEffect_attached _ _ s.mapSt) _)
        (fun j => congrFun (radiiEffect_attached _ _ s.mapSt) _) h
    · exact h
  | setShowLabels b =>
    simp only [stepOp]
    split_ifs
    · exact h
    · exact renderModeOK_congr cat s.mapSt _
        (congrFun (labelsEffect_attached _ _ s.mapSt) _)
        (fun j => congrFun (labelsEffect_attached _ _ s.mapSt) _) h
  | setShowHeatmap b =>
    simp only [stepOp]
    split_ifs
    · exact h
    · exact renderModeOK_congr cat s.mapSt _
        (heatmapEffect_attached_ne b s.mapSt LayerId.cluster (by simp))
        (fun j => heatmapEffect_attached_ne b s.mapSt (LayerId.marker j) (by simp)) h
  | setIsClusteringEnabled b =>
    simp only [stepOp]
    split_ifs
    · exact h
    · cases b
      · refine Or.inr ⟨clusteringEffect_cluster _ _ _, fun loc hl => ?_⟩
        have hm := clusteringEffect_marker (catalogIds cat) false s.mapSt loc.id
          (List.mem_map.mpr ⟨loc, hl, rfl⟩)
        simpa using hm
      · refine Or.inl ⟨clusteringEffect_cluster _ _ _, fun loc hl => ?_⟩
        have hm := clusteringEffect_marker (catalogIds cat) true s.mapSt loc.id
          (List.mem_map.mpr ⟨loc, hl, rfl⟩)
        simpa using hm

theorem initState_renderMode (cat : List LocationData) :
    renderModeOK cat (initState cat).mapSt :=
  Or.inl ⟨rfl, fun _ _ => rfl⟩

/-- Claim C6: in every reachable state of a session, exactly one marker
rendering mode is active — either every catalog marker sits in the attached
cluster group with no marker individually attached, or the cluster group is
detached and every marker is individually attached; never a mix. -/
theorem marker_mode_exclusive (cat : List LocationData) (ops : List Op) :
    renderModeOK cat (runOps cat ops).mapSt := by
  suffices h : ∀ (l : List Op) (s : AppState), renderModeOK cat s.mapSt →
      renderModeOK cat (l.foldl (fun s op => stepOp cat op s) s).mapSt by
    exact h ops (initState cat) (initState_renderMode cat)
  intro l
  induction l with
  | nil => intro s hs; exact hs
  | cons op t ih =>
    intro s hs
    rw [List.foldl_cons]
    exact ih _ (stepOp_renderMode cat op s hs)

/-- Witness for C6 on a concrete session mixing a clustering toggle, a
heatmap toggle and a radius change. -/
theorem marker_mode_exclusive_witness :
    renderModeOK cat3 (runOps cat3 [Op.setIsClusteringEnabled false,
      Op.setShowHeatmap true, Op.updateRadius 2 25]).mapSt :=
  marker_mode_exclusive cat3 [Op.setIsClusteringEnabled false,
    Op.setShowHeatmap true, Op.updateRadius 2 25]

/-! Section: C2, the key set of RadiusMap. -/

/-- An operation whose `setRadius` target (if any) is a catalog id. -/
def opRespectsCatalog (cat : List LocationData) : Op → Bool
  | Op.updateRadius id _ => hasHandle cat id
  | _ => true

theorem hasHandle_true_iff (cat : List LocationData) (id : Nat) :
    hasHandle cat id = true ↔ id ∈ catalogIds cat := by
  constructor
  · intro hc
    rcases List.any_eq_true.mp hc with ⟨loc, hl, hb⟩
    exact List.mem_map.mpr ⟨loc, hl, by simpa using hb⟩
  · exact hasHandle_of_mem cat id

theorem initState_keys (cat : List LocationData) :
    (initState cat).radii.map Prod.fst = catalogIds cat := by
  show (cat.map (fun loc => (loc.id, (10 : Int)))).map Prod.fst = catalogIds cat
  rw [List.map_map]
  rfl

theorem stepOp_keys (cat : List LocationData) (op : Op) (s : AppState)
    (hop : opRespectsCatalog cat op = true)
    (hs : s.radii.map Prod.fst = catalogIds cat) :
    (stepOp cat op s).radii.map Prod.fst = catalogIds cat := by
  cases op with
  | setSearchTerm q => exact hs
  | updateRadius id v =>
    have hid : id ∈ s.radii.map Prod.fst := by
      rw [hs]
      exact (hasHandle_true_iff cat id).mp hop
    have hr : (stepOp cat (Op.updateRadius id v) s).radii =
        updateRadius s.radii id v := rfl
    rw [hr, updateRadius_keys_of_mem s.radii id v hid, hs]
  | setUniformRadius v =>
    simp only [stepOp]
    split_ifs
    · exact hs
    · exact (syncRadii_keys s.radii v).trans hs
    · exact hs
  | setIsSynced b =>
    simp only [stepOp]
    split_ifs
    · exact hs
    · exact (syncRadii_keys s.radii s.uniformRadius).trans hs
    · exact hs
  | setShowLabels b =>
    simp only [stepOp]; split_ifs <;> exact hs
  | setShowHeatmap b =>
    simp only [stepOp]; split_ifs <;> exact hs
  | setIsClusteringEnabled b =>
    simp only [stepOp]; split_ifs <;> exact hs

theorem stepOp_keys_mono (cat : List LocationData) (op : Op) (s : AppState)
    (k : Nat) (hk : k ∈ s.radii.map Prod.fst) :
    k ∈ (stepOp cat op s).radii.map Prod.fst := by
  cases op with
  | setSearchTerm q => exact hk
  | updateRadius id v =>
    have hr : (stepOp cat (Op.updateRadius id v) s).radii =
        updateRadius s.radii id v := rfl
    rw [hr]
    by_cases hm : id ∈ s.radii.map Prod.fst
    · rw [updateRadius_keys_of_mem s.radii id v hm]; exact hk
    · rw [updateRadius_not_mem s.radii id v hm, List.map_append]
      exact List.mem_append.mpr (Or.inl hk)
  | setUniformRadius v =>
    simp only [stepOp]
    split_ifs
    · exact hk
    · show k ∈ (syncRadii s.radii v).map Prod.fst
      rw [syncRadii_keys]; exact hk
    · exact hk
  | setIsSynced b =>
    simp only [stepOp]
    split_ifs
    · exact hk
    · show k ∈ (syncRadii s.radii s.uniformRadius).map Prod.fst
      rw [syncRadii_keys]; exact hk
    · exact hk
  | setShowLabels b =>
    simp only [stepOp]; split_ifs <;> exact hk
  | setShowHeatmap b =>
    simp only [stepOp]; split_ifs <;> exact hk
  | setIsClusteringEnabled b =>
    simp only [stepOp]; split_ifs <;> exact hk

/-- Counterexample to C2 as stated: the operation sequence consisting of the
single call `setRadius(999, 5)` — an id outside the catalog `{1}` — leaves
`RadiusMap` with key list `[1, 999]`, not the id set of the catalog. -/
theorem radii_keys_counterexample :
    (runOps cat1 [Op.updateRadius 999 5]).radii.map Prod.fst ≠
      catalogIds cat1 := by decide

/-- Amended C2: after the catalog loads, the key list of `RadiusMap` equals
exactly the id list of the catalog under every operation sequence whose
`setRadius` calls all target catalog ids; and no operation ever removes a
key.  (As the counterexample shows, `setRadius` with a non-catalog id adds
that id as a new key.) -/
theorem radii_keys_catalog (cat : List LocationData) (ops : List Op) :
    ((∀ op ∈ ops, opRespectsCatalog cat op = true) →
      (runOps cat ops).radii.map Prod.fst = catalogIds cat) ∧
    (∀ (op : Op) (s : AppState) (k : Nat),
      k ∈ s.radii.map Prod.fst → k ∈ (stepOp cat op s).radii.map Prod.fst) := by
  constructor
  · intro hops
    suffices h : ∀ (l : List Op) (s : AppState),
        (∀ op ∈ l, opRespectsCatalog cat op = true) →
        s.radii.map Prod.fst = catalogIds cat →
        (l.foldl (fun s op => stepOp cat op s) s).radii.map Prod.fst =
          catalogIds cat by
      exact h ops (initState cat) hops (initState_keys cat)
    intro l
    induction l with
    | nil => intro s _ hs; exact hs
    | cons op t ih =>
      intro s hl hs
      rw [List.foldl_cons]
      exact ih _ (fun o ho => hl o (List.mem_cons_of_mem op ho))
        (stepOp_keys cat op s (hl op (List.mem_cons_self op t)) hs)
  · exact fun op s k => stepOp_keys_mono cat op s k

/-- A catalog-respecting session for the C2 witness. -/
def opsW : List Op :=
  [Op.updateRadius 2 25, Op.setIsSynced true, Op.setShowHeatmap true]

/-- Witness for the amended C2: a session of a radius change on a catalog id,
a sync flip and a heatmap toggle keeps the keys at exactly `{1,2,3}`. -/
theorem radii_keys_catalog_witness :
    (∀ op ∈ opsW, opRespectsCatalog cat3 op = true) ∧
    (runOps cat3 opsW).radii.map Prod.fst = catalogIds cat3 ∧
    ((2 : Nat) ∈ (initState cat3).radii.map Prod.fst ∧
      (2 : Nat) ∈ (stepOp cat3 (Op.updateRadius 2 25)
        (initState cat3)).radii.map Prod.fst) := by
  refine ⟨by decide, (radii_keys_catalog cat3 opsW).1 (by decide), by decide, ?_⟩
  exact (radii_keys_catalog cat3 opsW).2 (Op.updateRadius 2 25)
    (initState cat3) 2 (by decide)
